import Mathlib

/-!
Verification of the GitPaid bounty lifecycle, escrow conversions and wallet
management against their JavaScript sources.

Shallow embedding conventions:
* A database row becomes a Lean structure; the Prisma `update` calls of
  `backend/models/bountyModel.js` become pure functions on that structure.
* An Express controller (`backend/controllers/bountyController.js`,
  `backend/controllers/webhookController.js` wallet section) becomes a
  function from the request data and the current row(s) to a result record
  holding the HTTP response, the post-state of the row(s), and whether the
  escrow transfer was invoked.  A `try`/`catch` around an awaited transfer
  is modelled by passing the transfer's outcome as an `Option` argument:
  `some receipt` for a successful call, `none` for a throw.
* Amounts are JavaScript Numbers; they are idealised as exact rationals, so
  `Math.floor(x * 10**18)` becomes `Int.floor (q * 10 ^ 18)` and
  `BigInt(x * 10**18)` (which throws a RangeError unless the scaled value is
  an integer) becomes an `Option Int` that is `none` on non-integers.
-/

/-- `Bounty.status`: the four lifecycle states of `bountyController.js`. -/
inductive BountyStatus where
  | OPEN
  | CLAIMED
  | COMPLETED
  | CANCELLED
deriving DecidableEq, Repr

/-- One row of the `bounty` table.  `escrowId` is the spec's
`escrowReference` (the receipt string of the most recent fund movement);
`claimedBy` is the spec's `claimedByUserId`.  Wallet references are nullable
because `deleteWallet` with `force=true` nulls them out. -/
structure Bounty where
  id : Nat
  repoOwner : String
  repoName : String
  issueNumber : Nat
  amount : ℚ
  status : BountyStatus
  escrowId : String
  createdBy : Nat
  claimedBy : Option Nat
  ownerWalletId : Option Nat
  hunterWalletId : Option Nat
deriving DecidableEq, Repr

/-- One row of the `wallet` table (key material columns are not modelled:
no claim mentions them). -/
structure Wallet where
  id : Nat
  userId : Nat
  walletName : String
  publicKey : String
  isDefault : Bool
deriving DecidableEq, Repr

/-- The error kinds of the spec's taxonomy that the modelled handlers
produce.  `InvalidTransition` carries the current status, as the 400
message does; `Conflict` carries the reported `bountyCount`. -/
inductive ApiError where
  | NotFound
  | Forbidden
  | InvalidTransition (current : BountyStatus)
  | ValidationError
  | Conflict (bountyCount : Nat)
  | TransferFailed
deriving DecidableEq, Repr

/-- `createBounty` of `bountyModel.js` as invoked by the controller after a
successful funding transfer: a fresh row with `status: 'OPEN'`, the funding
receipt in `escrowId`, and no claimer or hunter wallet. -/
def createBounty (bid : Nat) (repoOwner repoName : String) (issueNumber : Nat)
    (amount : ℚ) (escrowId : String) (createdBy : Nat) (ownerWalletId : Nat) : Bounty :=
  { id := bid
    repoOwner := repoOwner
    repoName := repoName
    issueNumber := issueNumber
    amount := amount
    status := .OPEN
    escrowId := escrowId
    createdBy := createdBy
    claimedBy := none
    ownerWalletId := some ownerWalletId
    hunterWalletId := none }

/-- `markBountyClaimed` of `bountyModel.js`: a Prisma `update` whose `where`
clause is keyed on `id` only, so as a row transformation it sets
`claimedBy`, `hunterWalletId` and `status` unconditionally. -/
def markBountyClaimed (b : Bounty) (devId hunterWalletId : Nat) : Bounty :=
  { b with claimedBy := some devId
           hunterWalletId := some hunterWalletId
           status := .CLAIMED }

/-- `markBountyCompleted` of `bountyModel.js`: sets `status: 'COMPLETED'`
and stores the release transaction id in the `escrowId` column. -/
def markBountyCompleted (b : Bounty) (transactionId : String) : Bounty :=
  { b with status := .COMPLETED
           escrowId := transactionId }

/-- `cancelBounty` of `bountyModel.js`: sets `status: 'CANCELLED'` and
nothing else — in particular `escrowId` and `claimedBy` are left as they
were. -/
def cancelBountyModel (b : Bounty) : Bounty :=
  { b with status := .CANCELLED }

/-- Outcome of one controller call on a single bounty row: the HTTP
response (`ok` carries the updated row returned in the JSON body), the
post-state of the row, whether an escrow transfer call was made, and the
wallet id the transfer was directed to (when one was made). -/
structure OpResult where
  response : Except ApiError Bounty
  bounty : Bounty
  transferInvoked : Bool
  transferTarget : Option Nat
deriving Repr

/-- `claimBounty` of `bountyController.js`: require a wallet id (400
otherwise), reject when the row read is not `OPEN` (400 with the current
status), else apply `markBountyClaimed`.  No transfer is involved. -/
def claimBounty (userId : Nat) (walletId : Option Nat) (b : Bounty) : OpResult :=
  match walletId with
  | none => ⟨.error .ValidationError, b, false, none⟩
  | some w =>
    if b.status ≠ .OPEN then
      ⟨.error (.InvalidTransition b.status), b, false, none⟩
    else
      ⟨.ok (markBountyClaimed b userId w), markBountyClaimed b userId w, false, none⟩

/-- `completeBounty` of `bountyController.js`: creator check (403), then
status check (400), then `radius.releaseEscrow` (whose outcome — the
receipt string, or a throw — is the `release` argument), and only on a
successful transfer the `markBountyCompleted` write. -/
def completeBounty (userId : Nat) (b : Bounty) (release : Option String) : OpResult :=
  if b.createdBy ≠ userId then
    ⟨.error .Forbidden, b, false, none⟩
  else if b.status ≠ .CLAIMED then
    ⟨.error (.InvalidTransition b.status), b, false, none⟩
  else
    match release with
    | none => ⟨.error .TransferFailed, b, true, b.hunterWalletId⟩
    | some tx => ⟨.ok (markBountyCompleted b tx), markBountyCompleted b tx, true, b.hunterWalletId⟩

/-- `const walletIdToUse = refundWalletId || bounty.ownerWalletId` in
`cancelBounty` of `bountyController.js`. -/
def resolveRefundWallet (refundWalletId : Option Nat) (b : Bounty) : Option Nat :=
  match refundWalletId with
  | some w => some w
  | none => b.ownerWalletId

/-- `refundEscrow` of `backend/config/radius.js`: looks the destination
wallet up by id (`findUnique`) and throws when it is absent; otherwise the
transfer itself may succeed (the `send` receipt) or throw.  `none` models a
throw anywhere in the call.  No ownership check is performed on the
destination wallet. -/
def refundEscrow (wallets : List Wallet) (walletId : Option Nat)
    (send : Option String) : Option String :=
  match walletId with
  | none => none
  | some wid =>
    match wallets.find? (fun w => w.id == wid) with
    | none => none
    | some _ => send

/-- `cancelBounty` of `bountyController.js`: creator check (403), status
check (400 unless `OPEN` or `CLAIMED`), then `radius.refundEscrow` to the
resolved wallet, and only on success the `cancelBountyModel` write.  The
refund receipt is returned to the caller but never persisted. -/
def cancelBounty (userId : Nat) (refundWalletId : Option Nat)
    (wallets : List Wallet) (b : Bounty) (send : Option String) : OpResult :=
  if b.createdBy ≠ userId then
    ⟨.error .Forbidden, b, false, none⟩
  else if ¬ (b.status = .OPEN ∨ b.status = .CLAIMED) then
    ⟨.error (.InvalidTransition b.status), b, false, none⟩
  else
    let target := resolveRefundWallet refundWalletId b
    match refundEscrow wallets target send with
    | none => ⟨.error .TransferFailed, b, true, target⟩
    | some _ => ⟨.ok (cancelBountyModel b), cancelBountyModel b, true, target⟩

/-- One invocation of a state-machine operation on an existing row, with
its request data and injected external outcomes. -/
inductive BountyOp where
  | claim (userId : Nat) (walletId : Option Nat)
  | complete (userId : Nat) (release : Option String)
  | cancel (userId : Nat) (refundWalletId : Option Nat)
      (wallets : List Wallet) (send : Option String)

/-- Post-state of the row after one serialized controller call. -/
def applyOp (b : Bounty) (op : BountyOp) : Bounty :=
  match op with
  | .claim u w => (claimBounty u w b).bounty
  | .complete u rel => (completeBounty u b rel).bounty
  | .cancel u rw ws send => (cancelBounty u rw ws b send).bounty

/-- The interleaved execution of two `claimBounty` calls on the same row in
which both status reads happen before either write (schedule read1, read2,
write1, write2).  Each call makes the controller's `status !== 'OPEN'`
check against its own read snapshot; a passing check leads to the
`markBountyClaimed` update keyed on `id` only.  Returns whether each call
succeeded (HTTP 200) and the final row. -/
def claimRaceBothReadFirst (u1 w1 u2 w2 : Nat) (b : Bounty) :
    Bool × Bool × Bounty :=
  let ok1 := decide (b.status = BountyStatus.OPEN)
  let ok2 := decide (b.status = BountyStatus.OPEN)
  let afterFirst := if ok1 then markBountyClaimed b u1 w1 else b
  let afterSecond := if ok2 then markBountyClaimed afterFirst u2 w2 else afterFirst
  (ok1, ok2, afterSecond)

/-- `createEscrow` of `backend/config/radius.js`:
`BigInt(Math.floor(parseFloat(amount) * 10**18))`, with the Number
arithmetic idealised as exact rational arithmetic. -/
def createEscrowWei (amount : ℚ) : ℤ := ⌊amount * 10 ^ 18⌋

/-- `releaseEscrow` of `backend/config/radius.js`:
`BigInt(Math.floor(numericAmount * 10**18))` — the same floored scaling as
`createEscrow`. -/
def releaseEscrowWei (amount : ℚ) : ℤ := ⌊amount * 10 ^ 18⌋

/-- `refundEscrow` of `backend/config/radius.js`:
`BigInt(amount * 10**18)` with no `Math.floor`.  `BigInt` applied to a
Number that is not an integer throws a RangeError, modelled as `none`; on
an integer value it is the identity, hence equal to the floor. -/
def refundEscrowWei (amount : ℚ) : Option ℤ :=
  if (amount * 10 ^ 18).den = 1 then some ⌊amount * 10 ^ 18⌋ else none

/-- The wallet-creation request body fields.  The handler in
`walletController.js` destructures only `walletName`, `privateKey`,
`publicKey` and `generateNewKey` from `req.body`; a `makeDefault` field a
caller may send is carried here to state that it is never read. -/
structure CreateWalletRequest where
  walletName : Option String
  privateKey : Option String
  publicKey : Option String
  generateNewKey : Bool
  makeDefault : Bool
deriving DecidableEq, Repr

/-- `0x` prefixing of a supplied public key in `createWallet`. -/
def normalizeHexKey (s : String) : String :=
  if s.startsWith "0x" then s else "0x" ++ s

/-- `createWallet` of `walletController.js`.  `genPair` is the key pair a
`generateKeyPair()` call would produce (private, public); `keyCheckOk`
is the outcome of the `ec.keyFromPrivate` try/catch on a supplied private
key (`false` models the catch path, a 400); `existingWallets` is the count
returned by the `findMany` over the user's wallets.  The created row has
`isDefault: existingWallets === 0`; no request field influences it. -/
def createWalletHandler (req : CreateWalletRequest) (userId : Nat)
    (genPair : String × String) (keyCheckOk : Bool)
    (existingWallets : Nat) (newId : Nat) : Except ApiError Wallet :=
  match req.walletName with
  | none => .error .ValidationError
  | some name =>
    if ¬ req.generateNewKey ∧ req.publicKey = none then
      .error .ValidationError
    else if ¬ (req.generateNewKey ∨ req.privateKey = none) ∧ ¬ keyCheckOk then
      .error .ValidationError
    else
      .ok { id := newId
            userId := userId
            walletName := name
            publicKey :=
              if req.generateNewKey ∨ req.privateKey = none then genPair.2
              else normalizeHexKey (req.publicKey.getD "")
            isDefault := existingWallets == 0 }

/-- The `associatedBounties` query of `deleteWallet`: bounties whose
`ownerWalletId` or `hunterWalletId` equals the wallet id. -/
def associatedBounties (bounties : List Bounty) (wid : Nat) : List Bounty :=
  bounties.filter (fun b => b.ownerWalletId == some wid || b.hunterWalletId == some wid)

/-- The per-bounty `updateData` of the `force=true` path of `deleteWallet`:
null out exactly the matching wallet reference fields. -/
def detachWallet (wid : Nat) (b : Bounty) : Bounty :=
  let b1 := if b.ownerWalletId = some wid then { b with ownerWalletId := none } else b
  if b1.hunterWalletId = some wid then { b1 with hunterWalletId := none } else b1

/-- The default-promotion step after deleting a default wallet: `findFirst`
a remaining wallet of the user and set its `isDefault` to true. -/
def promoteFirstWallet (ws : List Wallet) (uid : Nat) : List Wallet :=
  match ws.find? (fun w => w.userId == uid) with
  | none => ws
  | some w => ws.map (fun x => if x.id == w.id then { x with isDefault := true } else x)

/-- Outcome of a `deleteWallet` call: HTTP response and the post-state of
the bounty and wallet tables. -/
structure DeleteWalletResult where
  response : Except ApiError Unit
  bounties : List Bounty
  wallets : List Wallet
deriving Repr

/-- `deleteWallet` of `walletController.js`: 404 when absent, 403 when
owned by another user, 400 `Conflict` with `bountyCount` when referencing
bounties exist and `force` is not set; otherwise (with `force`) detach the
wallet from every referencing bounty, delete the wallet, and promote a
remaining wallet of the user to default when the deleted one was the
default. -/
def deleteWallet (wid uid : Nat) (force : Bool)
    (ws : List Wallet) (bs : List Bounty) : DeleteWalletResult :=
  match ws.find? (fun w => w.id == wid) with
  | none => ⟨.error .NotFound, bs, ws⟩
  | some w =>
    if w.userId ≠ uid then
      ⟨.error .Forbidden, bs, ws⟩
    else
      let assoc := associatedBounties bs wid
      if 0 < assoc.length ∧ ¬ force then
        ⟨.error (.Conflict assoc.length), bs, ws⟩
      else
        let bs2 := if 0 < assoc.length ∧ force then bs.map (detachWallet wid) else bs
        let remaining := ws.filter (fun x => ! (x.id == wid))
        let ws2 := if w.isDefault then promoteFirstWallet remaining uid else remaining
        ⟨.ok (), bs2, ws2⟩

/-! ## Transition relation helpers -/

/-- The transitions the spec allows, plus standing still (a rejected call
leaves the row as it was). -/
def allowedStep (s t : BountyStatus) : Prop :=
  t = s ∨ (s = .OPEN ∧ t = .CLAIMED) ∨ (s = .CLAIMED ∧ t = .COMPLETED) ∨
    (s = .OPEN ∧ t = .CANCELLED) ∨ (s = .CLAIMED ∧ t = .CANCELLED)

theorem applyOp_status_step (b : Bounty) (op : BountyOp) :
    allowedStep b.status (applyOp b op).status := by
  cases op with
  | claim u w =>
    cases w with
    | none => simp [applyOp, claimBounty, allowedStep]
    | some wid =>
      by_cases h : b.status = .OPEN
      · simp [applyOp, claimBounty, h, markBountyClaimed, allowedStep]
      · simp [applyOp, claimBounty, h, allowedStep]
  | complete u rel =>
    by_cases hc : b.createdBy = u
    · by_cases hs : b.status = .CLAIMED
      · cases rel with
        | none => simp [applyOp, completeBounty, hc, hs, allowedStep]
        | some tx =>
          simp [applyOp, completeBounty, hc, hs, markBountyCompleted, allowedStep]
      · simp [applyOp, completeBounty, hc, hs, allowedStep]
    · simp [applyOp, completeBounty, hc, allowedStep]
  | cancel u rw ws send =>
    by_cases hc : b.createdBy = u
    · by_cases hs : b.status = .OPEN ∨ b.status = .CLAIMED
      · rcases hr : refundEscrow ws (resolveRefundWallet rw b) send with _ | tx
        · simp [applyOp, cancelBounty, hc, hs, hr, allowedStep]
        · rcases hs with hs | hs <;>
            simp [applyOp, cancelBounty, hc, hs, hr, cancelBountyModel, allowedStep]
      · simp [applyOp, cancelBounty, hc, hs, allowedStep]
    · simp [applyOp, cancelBounty, hc, allowedStep]

theorem applyOp_terminal_fixed (b : Bounty) (op : BountyOp)
    (h : b.status = .COMPLETED ∨ b.status = .CANCELLED) : applyOp b op = b := by
  have hOPEN : b.status ≠ .OPEN := by rcases h with h | h <;> simp [h]
  have hCL : b.status ≠ .CLAIMED := by rcases h with h | h <;> simp [h]
  cases op with
  | claim u w => cases w <;> simp [applyOp, claimBounty, hOPEN]
  | complete u rel =>
    by_cases hc : b.createdBy = u <;> simp [applyOp, completeBounty, hc, hCL]
  | cancel u rw ws send =>
    by_cases hc : b.createdBy = u <;> simp [applyOp, cancelBounty, hc, hOPEN, hCL]

theorem foldl_applyOp_terminal_fixed (ops : List BountyOp) (b : Bounty)
    (h : b.status = .COMPLETED ∨ b.status = .CANCELLED) :
    ops.foldl applyOp b = b := by
  induction ops generalizing b with
  | nil => rfl
  | cons op rest ih =>
    rw [List.foldl_cons, applyOp_terminal_fixed b op h, ih b h]

/-! ## Concrete fixtures -/

/-- An OPEN bounty as created by a successful funding call: funding receipt
`"fund-tx"` in `escrowId`, creator user 1, owner wallet 10. -/
def bountyOpenEx : Bounty :=
  { id := 7
    repoOwner := "octo"
    repoName := "repo"
    issueNumber := 5
    amount := 5 / 2
    status := .OPEN
    escrowId := "fund-tx"
    createdBy := 1
    claimedBy := none
    ownerWalletId := some 10
    hunterWalletId := none }

/-- The same bounty after claim (user 2, wallet 22) and completion. -/
def bountyCompletedEx : Bounty :=
  { bountyOpenEx with
      status := .COMPLETED
      claimedBy := some 2
      hunterWalletId := some 22
      escrowId := "release-tx" }

/-- Wallet 10 belongs to user 1 (the bounty creator above); wallet 99
belongs to a different user 2. -/
def walletsEx : List Wallet :=
  [⟨10, 1, "mine", "0xbeef", true⟩, ⟨99, 2, "other", "0xdead", false⟩]

/-! ## C1 -/

/-- C1: the guard and the write of `claim` are NOT a single conditional
update keyed on the status.  `markBountyClaimed` is keyed on `id` only, so
in the interleaving of two `claim` calls on the OPEN bounty in which both
status reads precede both writes, both calls succeed (both booleans are
`true`), the second write overwrites the first claimer even though the row
it hits is already `CLAIMED`: user 3 ends up as `claimedBy` with wallet 33
as `hunterWalletId`, and user 2's claim is silently lost — no loser
observes `InvalidTransition`. -/
theorem claim_race_both_calls_succeed :
    (claimRaceBothReadFirst 2 22 3 33 bountyOpenEx).1 = true ∧
    (claimRaceBothReadFirst 2 22 3 33 bountyOpenEx).2.1 = true ∧
    (claimRaceBothReadFirst 2 22 3 33 bountyOpenEx).2.2.claimedBy = some 3 ∧
    (claimRaceBothReadFirst 2 22 3 33 bountyOpenEx).2.2.hunterWalletId = some 33 ∧
    (markBountyClaimed bountyOpenEx 2 22).status = BountyStatus.CLAIMED ∧
    (markBountyClaimed (markBountyClaimed bountyOpenEx 2 22) 3 33).claimedBy = some 3 :=
  ⟨rfl, rfl, rfl, rfl, rfl, rfl⟩

/-! ## C2 -/

/-- C2: a `complete` or `cancel` call whose escrow transfer step fails
(the transfer call throws: `release = none` for complete, and for cancel a
`refundEscrow` outcome of `none` — destination wallet missing or `send`
throwing) performs no persistence write: the row, and with it `status` and
`escrowId`, is exactly what it was. -/
theorem transfer_failure_leaves_row_unchanged
    (u : Nat) (b : Bounty) (rw : Option Nat) (ws : List Wallet)
    (send : Option String)
    (hfail : refundEscrow ws (resolveRefundWallet rw b) send = none) :
    (completeBounty u b none).bounty = b ∧
    (cancelBounty u rw ws b send).bounty = b := by
  constructor
  · by_cases hc : b.createdBy = u
    · by_cases hs : b.status = .CLAIMED <;> simp [completeBounty, hc, hs]
    · simp [completeBounty, hc]
  · by_cases hc : b.createdBy = u
    · by_cases hs : b.status = .OPEN ∨ b.status = .CLAIMED <;>
        simp [cancelBounty, hc, hs, hfail]
    · simp [cancelBounty, hc]

/-- Witness for C2 at the concrete OPEN bounty with a throwing transfer. -/
theorem transfer_failure_leaves_row_unchanged_witness :
    refundEscrow walletsEx (resolveRefundWallet none bountyOpenEx) none = none ∧
    (completeBounty 1 bountyOpenEx none).bounty = bountyOpenEx ∧
    (cancelBounty 1 none walletsEx bountyOpenEx none).bounty = bountyOpenEx :=
  ⟨rfl,
   (transfer_failure_leaves_row_unchanged 1 bountyOpenEx none walletsEx none rfl).1,
   (transfer_failure_leaves_row_unchanged 1 bountyOpenEx none walletsEx none rfl).2⟩

/-! ## C3 -/

/-- C3: under serialized execution of the four operations, `status` only
ever moves along OPEN→CLAIMED, CLAIMED→COMPLETED, OPEN→CANCELLED,
CLAIMED→CANCELLED (or stays put on a rejected call), and a bounty in a
terminal state is left untouched by every sequence of operations. -/
theorem status_moves_only_along_lifecycle_edges :
    (∀ (b : Bounty) (op : BountyOp),
        allowedStep b.status (applyOp b op).status) ∧
    (∀ (b : Bounty) (ops : List BountyOp),
        b.status = .COMPLETED ∨ b.status = .CANCELLED →
        ops.foldl applyOp b = b) :=
  ⟨applyOp_status_step, fun b ops h => foldl_applyOp_terminal_fixed ops b h⟩

/-- Witness for C3 at the completed bounty: a further claim attempt leaves
it untouched, and a step from the OPEN bounty is an allowed edge. -/
theorem status_moves_only_along_lifecycle_edges_witness :
    (bountyCompletedEx.status = .COMPLETED ∨ bountyCompletedEx.status = .CANCELLED) ∧
    List.foldl applyOp bountyCompletedEx [BountyOp.claim 3 (some 33)] = bountyCompletedEx ∧
    allowedStep bountyOpenEx.status (applyOp bountyOpenEx (BountyOp.claim 3 (some 33))).status :=
  ⟨Or.inl rfl,
   status_moves_only_along_lifecycle_edges.2 bountyCompletedEx
     [BountyOp.claim 3 (some 33)] (Or.inl rfl),
   status_moves_only_along_lifecycle_edges.1 bountyOpenEx (BountyOp.claim 3 (some 33))⟩

/-! ## C4 -/

/-- C4 counterexample: cancelling the OPEN bounty succeeds with refund
receipt `"refund-tx"`, yet the now-CANCELLED row still carries the funding
receipt `"fund-tx"` in `escrowId` — the refund receipt is never persisted,
so `escrowReference` is not overwritten on this terminal transition. -/
theorem cancel_keeps_funding_receipt :
    (cancelBounty 1 none walletsEx bountyOpenEx (some "refund-tx")).response
        = .ok (cancelBountyModel bountyOpenEx) ∧
    (cancelBounty 1 none walletsEx bountyOpenEx (some "refund-tx")).bounty.status
        = BountyStatus.CANCELLED ∧
    (cancelBounty 1 none walletsEx bountyOpenEx (some "refund-tx")).bounty.escrowId
        = "fund-tx" ∧
    bountyOpenEx.escrowId = "fund-tx" :=
  ⟨rfl, rfl, rfl, rfl⟩

/-- C4 (amended): `escrowId` carries the funding receipt from creation; a
successful `complete` by the creator overwrites it with the release
receipt; `claim` and `cancel` never modify it — in particular the refund
receipt of a cancel is returned to the caller but not persisted. -/
theorem escrow_reference_receipt_lifecycle :
    (∀ (bid : Nat) (ro rn : String) (iss : Nat) (amt : ℚ) (esc : String)
        (cby ow : Nat), (createBounty bid ro rn iss amt esc cby ow).escrowId = esc) ∧
    (∀ (u : Nat) (b : Bounty) (tx : String), b.createdBy = u → b.status = .CLAIMED →
        (completeBounty u b (some tx)).bounty.escrowId = tx) ∧
    (∀ (u : Nat) (w : Option Nat) (b : Bounty),
        (claimBounty u w b).bounty.escrowId = b.escrowId) ∧
    (∀ (u : Nat) (rw : Option Nat) (ws : List Wallet) (b : Bounty)
        (send : Option String),
        (cancelBounty u rw ws b send).bounty.escrowId = b.escrowId) := by
  refine ⟨fun bid ro rn iss amt esc cby ow => rfl, ?_, ?_, ?_⟩
  · intro u b tx hc hs
    simp [completeBounty, hc, hs, markBountyCompleted]
  · intro u w b
    cases w with
    | none => rfl
    | some wid =>
      by_cases h : b.status = .OPEN <;> simp [claimBounty, h, markBountyClaimed]
  · intro u rw ws b send
    by_cases hc : b.createdBy = u
    · by_cases hs : b.status = .OPEN ∨ b.status = .CLAIMED
      · rcases hr : refundEscrow ws (resolveRefundWallet rw b) send with _ | tx <;>
          simp [cancelBounty, hc, hs, hr, cancelBountyModel]
      · simp [cancelBounty, hc, hs]
    · simp [cancelBounty, hc]

/-- Witness for C4 (amended) at a claimed bounty completed by its creator. -/
theorem escrow_reference_receipt_lifecycle_witness :
    bountyOpenEx.createdBy = 1 ∧
    (markBountyClaimed bountyOpenEx 2 22).createdBy = 1 ∧
    (markBountyClaimed bountyOpenEx 2 22).status = BountyStatus.CLAIMED ∧
    (completeBounty 1 (markBountyClaimed bountyOpenEx 2 22)
        (some "release-tx")).bounty.escrowId = "release-tx" :=
  ⟨rfl, rfl, rfl,
   escrow_reference_receipt_lifecycle.2.1 1 (markBountyClaimed bountyOpenEx 2 22)
     "release-tx" rfl rfl⟩

/-! ## C5 -/

/-- C5 counterexample: user 1 cancels their own OPEN bounty overriding the
refund destination with wallet 99, which belongs to user 2; the call
succeeds and the refund transfer targets wallet 99 — there is no
`Forbidden` ownership failure for a foreign override wallet. -/
theorem cancel_override_foreign_wallet_succeeds :
    (cancelBounty 1 (some 99) walletsEx bountyOpenEx (some "refund-tx")).response
        = .ok (cancelBountyModel bountyOpenEx) ∧
    (cancelBounty 1 (some 99) walletsEx bountyOpenEx (some "refund-tx")).transferTarget
        = some 99 ∧
    walletsEx.find? (fun w => w.id == 99) = some ⟨99, 2, "other", "0xdead", false⟩ ∧
    bountyOpenEx.createdBy = 1 :=
  ⟨rfl, rfl, rfl, rfl⟩

/-- C5 (amended): `cancel` performs no ownership check on the override
refund wallet.  Whenever the creator and status guards pass and the
resolved destination wallet merely exists (whoever owns it), the refund is
sent to it and the call succeeds. -/
theorem cancel_refund_target_unchecked
    (u : Nat) (rw : Option Nat) (ws : List Wallet) (b : Bounty) (tx : String)
    (wid : Nat) (w : Wallet)
    (hc : b.createdBy = u) (hs : b.status = .OPEN ∨ b.status = .CLAIMED)
    (hres : resolveRefundWallet rw b = some wid)
    (hfind : ws.find? (fun x => x.id == wid) = some w) :
    (cancelBounty u rw ws b (some tx)).response = .ok (cancelBountyModel b) ∧
    (cancelBounty u rw ws b (some tx)).transferTarget = some wid := by
  have hre : refundEscrow ws (some wid) (some tx) = some tx := by
    simp [refundEscrow, hfind]
  rcases hs with hs | hs <;> simp [cancelBounty, hc, hs, hres, hre]

/-- Witness for C5 (amended): the foreign wallet 99 scenario. -/
theorem cancel_refund_target_unchecked_witness :
    bountyOpenEx.createdBy = 1 ∧
    (bountyOpenEx.status = .OPEN ∨ bountyOpenEx.status = .CLAIMED) ∧
    resolveRefundWallet (some 99) bountyOpenEx = some 99 ∧
    walletsEx.find? (fun x => x.id == 99) = some ⟨99, 2, "other", "0xdead", false⟩ ∧
    (cancelBounty 1 (some 99) walletsEx bountyOpenEx (some "rtx")).response
        = .ok (cancelBountyModel bountyOpenEx) ∧
    (cancelBounty 1 (some 99) walletsEx bountyOpenEx (some "rtx")).transferTarget
        = some 99 :=
  ⟨rfl, Or.inl rfl, rfl, rfl,
   (cancel_refund_target_unchecked 1 (some 99) walletsEx bountyOpenEx "rtx" 99
      ⟨99, 2, "other", "0xdead", false⟩ rfl (Or.inl rfl) rfl rfl).1,
   (cancel_refund_target_unchecked 1 (some 99) walletsEx bountyOpenEx "rtx" 99
      ⟨99, 2, "other", "0xdead", false⟩ rfl (Or.inl rfl) rfl rfl).2⟩

/-! ## C6 -/

/-- C6 counterexample: for the amount 1/(2·10^18) the fund and release
conversions truncate the scaled value 1/2 to 0, but the refund conversion,
which lacks the floor, fails outright (the `BigInt` RangeError): the
truncating conversion is not the one applied in `refundEscrow`. -/
theorem refund_conversion_not_truncating :
    createEscrowWei (1 / 2000000000000000000) = 0 ∧
    releaseEscrowWei (1 / 2000000000000000000) = 0 ∧
    refundEscrowWei (1 / 2000000000000000000) = none := by
  refine ⟨?_, ?_, ?_⟩ <;>
    norm_num [createEscrowWei, releaseEscrowWei, refundEscrowWei]

/-- C6 (amended): fund and release apply the identical floored scaling by
10^18; refund applies an unfloored conversion that agrees with them
exactly on amounts whose scaled value is an integer and fails on all
others. -/
theorem escrow_conversions_relationship :
    (∀ q : ℚ, releaseEscrowWei q = createEscrowWei q) ∧
    (∀ (q : ℚ) (z : ℤ), refundEscrowWei q = some z → z = createEscrowWei q) ∧
    (∀ q : ℚ, (q * 10 ^ 18).den = 1 → refundEscrowWei q = some (createEscrowWei q)) := by
  refine ⟨fun q => rfl, fun q z h => ?_, fun q h => ?_⟩
  · unfold refundEscrowWei at h
    split at h
    · exact (Option.some.inj h).symm
    · exact Option.noConfusion h
  · simp [refundEscrowWei, h, createEscrowWei]

/-- Witness for C6 (amended) at the integral-scaling amount 5/2. -/
theorem escrow_conversions_relationship_witness :
    ((5 / 2 : ℚ) * 10 ^ 18).den = 1 ∧
    refundEscrowWei (5 / 2) = some (createEscrowWei (5 / 2)) ∧
    releaseEscrowWei (5 / 2) = createEscrowWei (5 / 2) :=
  ⟨by norm_num,
   escrow_conversions_relationship.2.2 (5 / 2) (by norm_num),
   escrow_conversions_relationship.1 (5 / 2)⟩

/-! ## C7 -/

/-- C7 counterexample: cancelling the OPEN bounty directly yields a row
with `status = CANCELLED` and `claimedBy` still `none`, so
"claimedByUserId is null iff status = OPEN" fails for bounties cancelled
out of OPEN. -/
theorem cancelled_from_open_keeps_null_claimer :
    (cancelBounty 1 none walletsEx bountyOpenEx (some "refund-tx")).bounty.status
        = BountyStatus.CANCELLED ∧
    (cancelBounty 1 none walletsEx bountyOpenEx (some "refund-tx")).bounty.claimedBy
        = none :=
  ⟨rfl, rfl⟩

/-- The invariant the code actually maintains: a null claimer on every
OPEN bounty, a non-null claimer on every CLAIMED or COMPLETED bounty, and
no constraint on CANCELLED bounties. -/
def claimerInv (b : Bounty) : Prop :=
  (b.status = .OPEN → b.claimedBy = none) ∧
  ((b.status = .CLAIMED ∨ b.status = .COMPLETED) → b.claimedBy ≠ none)

/-- C7 (amended): `claimedBy` is null on creation, and the four operations
preserve: null claimer on OPEN bounties, non-null claimer on CLAIMED and
COMPLETED bounties; a bounty cancelled directly from OPEN keeps a null
claimer, so a CANCELLED bounty may have either. -/
theorem claimer_null_invariant :
    (∀ (bid : Nat) (ro rn : String) (iss : Nat) (amt : ℚ) (esc : String)
        (cby ow : Nat), claimerInv (createBounty bid ro rn iss amt esc cby ow)) ∧
    (∀ (b : Bounty) (op : BountyOp), claimerInv b → claimerInv (applyOp b op)) := by
  constructor
  · intro bid ro rn iss amt esc cby ow
    refine ⟨fun _ => rfl, fun h => ?_⟩
    rcases h with h | h <;> simp [createBounty] at h
  · intro b op hinv
    cases op with
    | claim u w =>
      cases w with
      | none => exact hinv
      | some wid =>
        by_cases h : b.status = .OPEN
        · simp [applyOp, claimBounty, h, claimerInv, markBountyClaimed]
        · simpa [applyOp, claimBounty, h] using hinv
    | complete u rel =>
      by_cases hc : b.createdBy = u
      · by_cases hs : b.status = .CLAIMED
        · cases rel with
          | none => simpa [applyOp, completeBounty, hc, hs] using hinv
          | some tx =>
            have hcl : b.claimedBy ≠ none := hinv.2 (Or.inl hs)
            simp [applyOp, completeBounty, hc, hs, claimerInv, markBountyCompleted, hcl]
        · simpa [applyOp, completeBounty, hc, hs] using hinv
      · simpa [applyOp, completeBounty, hc] using hinv
    | cancel u rw ws send =>
      by_cases hc : b.createdBy = u
      · by_cases hs : b.status = .OPEN ∨ b.status = .CLAIMED
        · rcases hr : refundEscrow ws (resolveRefundWallet rw b) send with _ | tx
          · simpa [applyOp, cancelBounty, hc, hs, hr] using hinv
          · rcases hs with hs | hs <;>
              simp [applyOp, cancelBounty, hc, hs, hr, claimerInv, cancelBountyModel]
        · simpa [applyOp, cancelBounty, hc, hs] using hinv
      · simpa [applyOp, cancelBounty, hc] using hinv

/-- Witness for C7 (amended): the invariant holds on the concrete OPEN
bounty and is preserved by a claim call on it. -/
theorem claimer_null_invariant_witness :
    claimerInv bountyOpenEx ∧
    claimerInv (applyOp bountyOpenEx (BountyOp.claim 2 (some 22))) :=
  have h0 : claimerInv bountyOpenEx :=
    ⟨fun _ => rfl, fun h => by rcases h with h | h <;> exact absurd h (by decide)⟩
  ⟨h0, claimer_null_invariant.2 bountyOpenEx (BountyOp.claim 2 (some 22)) h0⟩

/-! ## C8 -/

/-- C8: `complete` on a bounty whose status is not CLAIMED (an already
COMPLETED one in particular) performs no release transfer and leaves the
row untouched, failing with `InvalidTransition` when called by the creator
(a non-creator fails one guard earlier, with `Forbidden`); conversely the
release transfer is invoked exactly when the bounty is CLAIMED and the
caller is its creator. -/
theorem complete_never_retriggers_release
    (u : Nat) (b : Bounty) (rel : Option String) :
    (b.status ≠ .CLAIMED →
      (completeBounty u b rel).transferInvoked = false ∧
      (completeBounty u b rel).bounty = b ∧
      (b.createdBy = u →
        (completeBounty u b rel).response
          = .error (.InvalidTransition b.status))) ∧
    ((completeBounty u b rel).transferInvoked = true →
      b.status = .CLAIMED ∧ b.createdBy = u) := by
  constructor
  · intro hs
    by_cases hc : b.createdBy = u
    · exact ⟨by simp [completeBounty, hc, hs], by simp [completeBounty, hc, hs],
             fun _ => by simp [completeBounty, hc, hs]⟩
    · exact ⟨by simp [completeBounty, hc], by simp [completeBounty, hc],
             fun h => absurd h hc⟩
  · intro hinv
    by_cases hc : b.createdBy = u
    · by_cases hs : b.status = .CLAIMED
      · exact ⟨hs, hc⟩
      · simp [completeBounty, hc, hs] at hinv
    · simp [completeBounty, hc] at hinv

/-- Witness for C8: a second `complete` by the creator on the already
COMPLETED bounty. -/
theorem complete_never_retriggers_release_witness :
    bountyCompletedEx.status ≠ BountyStatus.CLAIMED ∧
    (completeBounty 1 bountyCompletedEx (some "again-tx")).transferInvoked = false ∧
    (completeBounty 1 bountyCompletedEx (some "again-tx")).bounty = bountyCompletedEx ∧
    (completeBounty 1 bountyCompletedEx (some "again-tx")).response
      = .error (.InvalidTransition bountyCompletedEx.status) :=
  have hne : bountyCompletedEx.status ≠ BountyStatus.CLAIMED := by decide
  have h := complete_never_retriggers_release 1 bountyCompletedEx (some "again-tx")
  ⟨hne, (h.1 hne).1, (h.1 hne).2.1, (h.1 hne).2.2 rfl⟩

/-! ## C9 helper lemmas -/

theorem detachWallet_clears (wid : Nat) (b : Bounty) :
    (detachWallet wid b).ownerWalletId ≠ some wid ∧
    (detachWallet wid b).hunterWalletId ≠ some wid := by
  unfold detachWallet
  by_cases h1 : b.ownerWalletId = some wid <;>
    by_cases h2 : b.hunterWalletId = some wid <;> simp [h1, h2]

theorem promoteFirstWallet_ids (ws : List Wallet) (uid : Nat) (x : Wallet)
    (hx : x ∈ promoteFirstWallet ws uid) : ∃ y ∈ ws, y.id = x.id := by
  unfold promoteFirstWallet at hx
  rcases hf : ws.find? (fun w => w.userId == uid) with _ | w
  · rw [hf] at hx
    exact ⟨x, hx, rfl⟩
  · rw [hf] at hx
    rcases List.mem_map.mp hx with ⟨y, hy, hmap⟩
    refine ⟨y, hy, ?_⟩
    by_cases h : (y.id == w.id) = true <;> simp [h] at hmap <;> rw [← hmap]

/-! ## C9 -/

/-- C9: deleting a wallet referenced by N > 0 bounties without `force`
fails with `Conflict` reporting `bountyCount = N` and changes neither
table; with `force=true` it nulls the referencing field on every bounty
(afterwards no bounty references the wallet on either side), removes the
wallet from the wallet table, and succeeds. -/
theorem delete_wallet_conflict_and_force_detach
    (wid uid : Nat) (w : Wallet) (ws : List Wallet) (bs : List Bounty)
    (hfind : ws.find? (fun x => x.id == wid) = some w)
    (howner : w.userId = uid)
    (hN : 0 < (associatedBounties bs wid).length) :
    ((deleteWallet wid uid false ws bs).response
        = .error (.Conflict (associatedBounties bs wid).length) ∧
     (deleteWallet wid uid false ws bs).bounties = bs ∧
     (deleteWallet wid uid false ws bs).wallets = ws) ∧
    ((deleteWallet wid uid true ws bs).response = .ok () ∧
     (deleteWallet wid uid true ws bs).bounties = bs.map (detachWallet wid) ∧
     (∀ b ∈ (deleteWallet wid uid true ws bs).bounties,
        b.ownerWalletId ≠ some wid ∧ b.hunterWalletId ≠ some wid) ∧
     (∀ x ∈ (deleteWallet wid uid true ws bs).wallets, x.id ≠ wid)) := by
  have hforce : deleteWallet wid uid true ws bs
      = ⟨.ok (), bs.map (detachWallet wid),
         if w.isDefault then
           promoteFirstWallet (ws.filter (fun x => ! (x.id == wid))) uid
         else ws.filter (fun x => ! (x.id == wid))⟩ := by
    simp [deleteWallet, hfind, howner, hN]
  refine ⟨⟨?_, ?_, ?_⟩, ?_, ?_, ?_, ?_⟩
  · simp [deleteWallet, hfind, howner, hN]
  · simp [deleteWallet, hfind, howner, hN]
  · simp [deleteWallet, hfind, howner, hN]
  · rw [hforce]
  · rw [hforce]
  · rw [hforce]
    intro b hb
    rcases List.mem_map.mp hb with ⟨b0, _, hb0⟩
    rw [← hb0]
    exact detachWallet_clears wid b0
  · rw [hforce]
    intro x hx
    by_cases hd : w.isDefault
    · rw [if_pos hd] at hx
      obtain ⟨y, hy, hid⟩ := promoteFirstWallet_ids _ _ _ hx
      have hyp := (List.mem_filter.mp hy).2
      rw [← hid]
      simpa using hyp
    · rw [if_neg hd] at hx
      have hyp := (List.mem_filter.mp hx).2
      simpa using hyp

/-- A second bounty referencing wallet 10 on the hunter side. -/
def bountyHunterRefEx : Bounty :=
  { bountyOpenEx with
      id := 8
      status := .CLAIMED
      claimedBy := some 2
      ownerWalletId := some 99
      hunterWalletId := some 10 }

/-- Two bounties both referencing wallet 10 (owner side and hunter side). -/
def bountiesEx : List Bounty := [bountyOpenEx, bountyHunterRefEx]

/-- Witness for C9: wallet 10 is referenced by the two concrete bounties;
deletion without force reports the conflict, with force succeeds. -/
theorem delete_wallet_conflict_and_force_detach_witness :
    walletsEx.find? (fun x => x.id == 10) = some ⟨10, 1, "mine", "0xbeef", true⟩ ∧
    (Wallet.mk 10 1 "mine" "0xbeef" true).userId = 1 ∧
    0 < (associatedBounties bountiesEx 10).length ∧
    (deleteWallet 10 1 false walletsEx bountiesEx).response
        = .error (.Conflict (associatedBounties bountiesEx 10).length) ∧
    (deleteWallet 10 1 true walletsEx bountiesEx).response = .ok () :=
  have h := delete_wallet_conflict_and_force_detach 10 1 ⟨10, 1, "mine", "0xbeef", true⟩
      walletsEx bountiesEx rfl rfl (by decide)
  ⟨rfl, rfl, by decide, h.1.1, h.2.1⟩

/-! ## C10 -/

/-- C10: `createWallet` never reads a caller-supplied default flag — the
handler's result is identical for every value of `makeDefault` in the
request — and a created wallet's `isDefault` is true exactly when the user
had zero existing wallets, so every later wallet is created non-default
even when the caller asks for default. -/
theorem create_wallet_default_from_count_only
    (req : CreateWalletRequest) (uid : Nat) (genPair : String × String)
    (chk : Bool) (n newId : Nat) :
    (∀ d : Bool,
      createWalletHandler { req with makeDefault := d } uid genPair chk n newId
        = createWalletHandler req uid genPair chk n newId) ∧
    (∀ w : Wallet,
      createWalletHandler req uid genPair chk n newId = .ok w →
      w.isDefault = (n == 0)) := by
  constructor
  · intro d
    cases req
    rfl
  · intro w hw
    unfold createWalletHandler at hw
    rcases hname : req.walletName with _ | name <;> rw [hname] at hw
    · exact Except.noConfusion hw
    · split at hw
      · exact Except.noConfusion hw
      · split at hw
        · exact Except.noConfusion hw
        · split at hw
          · exact Except.noConfusion hw
          · injection hw with h
            rw [← h]

/-- Witness for C10: with one existing wallet, a creation request asking
for default produces the same non-default wallet as one that does not. -/
theorem create_wallet_default_from_count_only_witness :
    createWalletHandler ⟨some "w2", none, none, true, true⟩ 1 ("0xpriv", "0xpub") true 1 55
      = createWalletHandler ⟨some "w2", none, none, true, false⟩ 1 ("0xpriv", "0xpub") true 1 55 ∧
    createWalletHandler ⟨some "w2", none, none, true, false⟩ 1 ("0xpriv", "0xpub") true 1 55
      = .ok ⟨55, 1, "w2", "0xpub", false⟩ ∧
    (Wallet.mk 55 1 "w2" "0xpub" false).isDefault = (1 == 0) :=
  have h := create_wallet_default_from_count_only ⟨some "w2", none, none, true, false⟩ 1
      ("0xpriv", "0xpub") true 1 55
  ⟨h.1 true, rfl, h.2 ⟨55, 1, "w2", "0xpub", false⟩ rfl⟩
